import Mathlib

/-!
Verification of the protocol command dispatcher and forced-action state
machine of the human-control harness (src/src/controller.py), as a shallow
embedding in Lean 4.

The registry (`TonyModel`) and the decoded command record types live in
modules of the repository that are not part of the sources given here
(model.py, api.py); those definitions are modelled from the design
document's data model and registry operation contracts, as indicated on
each such definition.  Everything else is translated directly from
controller.py.

Python's `random.choice` is modelled by an explicit index argument `pick`:
the chosen element is `l[pick % l.length]`, and the call fails (raises
IndexError) exactly when the list is empty, as in Python.  The external
JSF schema sampler and `json.dumps` are modelled as opaque functions in an
environment record.  Side effects on the view, the log and the outgoing
API socket are modelled as an ordered list of `Output` events.
-/

/-- Modelled from the spec: data model of api.py (absent from src/).
An action as declared by the agent: name (unique key), description and an
optional JSON schema (kept opaque as its source text). -/
structure NeuroAction where
  name : String
  description : String
  schema : Option String
deriving Repr, DecidableEq

/-- Modelled from the spec: the Action Registry of model.py (absent from
src/), a collection of actions keyed by name. -/
structure TonyModel where
  actions : List NeuroAction
deriving Repr, DecidableEq

/-- Modelled from the spec: registry operation has(name). -/
def TonyModel.has_action (m : TonyModel) (name : String) : Bool :=
  m.actions.any (fun a => a.name == name)

/-- Modelled from the spec: registry operation add(action), a no-op if the
name already exists (the controller also guards every call with
has_action). -/
def TonyModel.add_action (m : TonyModel) (a : NeuroAction) : TonyModel :=
  if m.has_action a.name then m else { actions := m.actions ++ [a] }

/-- Modelled from the spec: registry operation remove(name); removing an
absent name is a no-op (the caller signals "not found" itself). -/
def TonyModel.remove_action_by_name (m : TonyModel) (name : String) : TonyModel :=
  { actions := m.actions.filter (fun a => a.name != name) }

/-- Modelled from the spec: registry operation clear(). -/
def TonyModel.clear_actions (_m : TonyModel) : TonyModel :=
  { actions := [] }

/-- Modelled from the spec: decoded startup command (no payload used by the
controller). -/
structure StartupCommand where
deriving Repr, DecidableEq

/-- Modelled from the spec: decoded context command. -/
structure ContextCommand where
  message : String
  silent : Bool
deriving Repr, DecidableEq

/-- Modelled from the spec: decoded actions/register command. -/
structure ActionsRegisterCommand where
  actions : List NeuroAction
deriving Repr, DecidableEq

/-- Modelled from the spec: decoded actions/unregister command. -/
structure ActionsUnregisterCommand where
  action_names : List String
deriving Repr, DecidableEq

/-- Modelled from the spec: decoded actions/force command. -/
structure ActionsForceCommand where
  state : Option String
  query : String
  ephemeral_context : Bool
  action_names : List String
deriving Repr, DecidableEq

/-- Modelled from the spec: decoded action/result command. -/
structure ActionResultCommand where
  success : Bool
  message : Option String
deriving Repr, DecidableEq

/-- Live operator settings read by the controller from the view's control
panel (view.py, ControlPanel). -/
structure Controls where
  ignore_actions_force : Bool
  auto_send : Bool
  validate_schema : Bool
  latency : Nat
deriving Repr, DecidableEq

/-- An observable effect of the controller: an outgoing invocation on the
API socket, a log line, or a call into the view. -/
inductive Output where
  | sendAction (id : String) (name : String) (data : Option String)
  | disableActions
  | logSystem (msg : String)
  | logWarning (msg : String)
  | logInfo (msg : String)
  | logDebugResult (success : Bool) (active : Option ActionsForceCommand)
  | logState (msg : String) (ephemeral : Bool)
  | logQuery (msg : String) (ephemeral : Bool)
  | logDescription (msg : String)
  | logActionResult (success : Bool) (msg : String)
  | logContext (msg : String) (silent : Bool)
  | viewAddAction (a : NeuroAction)
  | viewRemoveAction (name : String)
  | viewClearActions
  | viewForceActions (state : Option String) (query : String)
      (ephemeral : Bool) (names : List String) (retry : Bool)
  | viewOnActionResult (success : Bool) (msg : Option String)
deriving Repr, DecidableEq

/-- The mutable state of TonyController that the dispatcher and the
forced-action state machine touch: the registry, the at-most-one active
forced request, the id-generator counter, and the live control-panel
settings. -/
structure ControllerState where
  model : TonyModel
  active_actions_force : Option ActionsForceCommand
  id_counter : Nat
  controls : Controls
deriving Repr, DecidableEq

/-- External capabilities: JSF(schema).generate() and json.dumps, kept
opaque. -/
structure Env where
  jsf_generate : String → String
  json_dumps : String → String

/-- The id string produced by the i-th call of action_id_generator
(controller.py line 18: an f-string gluing the fixed stem to the
counter). -/
def action_id (i : Nat) : String :=
  "action_" ++ Nat.repr i

/-- Draw the next id from the generator and advance its counter. -/
def gen_next (s : ControllerState) : String × ControllerState :=
  (action_id s.id_counter, { s with id_counter := s.id_counter + 1 })

/-- The set of ids issued by the generator before the current state. -/
def issued_ids (s : ControllerState) : List String :=
  (List.range s.id_counter).map action_id

/-- TonyController.send_action: log, emit the invocation, lock the view. -/
def send_action (s : ControllerState) (id name : String) (data : Option String) :
    ControllerState × List Output :=
  (s, [Output.logSystem ("Sending action: " ++ name),
       Output.sendAction id name data,
       Output.disableActions])

/-- TonyController.execute_actions_force.  `pick` models random.choice: on a
non-empty candidate list the element at index pick mod length is chosen; on
an empty list the IndexError of random.choice is an error result. -/
def execute_actions_force (env : Env) (pick : Nat) (s : ControllerState)
    (cmd : ActionsForceCommand) (retry : Bool) :
    Except String (ControllerState × List Output) :=
  let s1 : ControllerState := { s with active_actions_force := some cmd }
  if s1.controls.auto_send then
    let actions := s1.model.actions.filter (fun a => cmd.action_names.contains a.name)
    match actions[pick % actions.length]? with
    | none => Except.error "IndexError: cannot choose from an empty sequence"
    | some action =>
      let (id, s2) := gen_next s1
      match action.schema with
      | none =>
        let (s3, out) := send_action s2 id action.name none
        Except.ok (s3, Output.logSystem "Automatically sending random action." :: out)
      | some schema =>
        let sample := env.jsf_generate schema
        let (s3, out) := send_action s2 id action.name (some (env.json_dumps sample))
        Except.ok (s3, Output.logSystem "Automatically sending random action." :: out)
  else
    Except.ok (s1, [Output.viewForceActions cmd.state cmd.query cmd.ephemeral_context
      cmd.action_names retry])

/-- TonyController.on_startup: clear the registry and the view's list. -/
def on_startup (s : ControllerState) (_cmd : StartupCommand) :
    ControllerState × List Output :=
  ({ s with model := s.model.clear_actions }, [Output.viewClearActions])

/-- TonyController.on_context. -/
def on_context (s : ControllerState) (cmd : ContextCommand) :
    ControllerState × List Output :=
  (s, [Output.logContext cmd.message cmd.silent])

/-- One iteration of the loop in TonyController.on_actions_register. -/
def register_one (s : ControllerState) (a : NeuroAction) :
    ControllerState × List Output :=
  if s.model.has_action a.name then
    (s, [Output.logWarning ("Action \"" ++ a.name ++ "\" already exists. Ignoring.")])
  else
    ({ s with model := s.model.add_action a },
     [Output.viewAddAction a,
      Output.logSystem ("Action registered: " ++ a.name),
      Output.logDescription (a.name ++ ": " ++ a.description)])

/-- TonyController.on_actions_register: fold register_one over the batch. -/
def on_actions_register (s : ControllerState) (cmd : ActionsRegisterCommand) :
    ControllerState × List Output :=
  cmd.actions.foldl
    (fun acc a =>
      let r := register_one acc.1 a
      (r.1, acc.2 ++ r.2))
    (s, [])

/-- One iteration of the loop in TonyController.on_actions_unregister: an
absent name yields an informational signal, then the removal (a no-op) and
the log lines run unconditionally as in the source. -/
def unregister_one (s : ControllerState) (name : String) :
    ControllerState × List Output :=
  let infoOut : List Output :=
    if s.model.has_action name then []
    else [Output.logInfo ("Action \"" ++ name ++ "\" does not exist.")]
  ({ s with model := s.model.remove_action_by_name name },
   infoOut ++ [Output.viewRemoveAction name,
               Output.logSystem ("Action unregistered: " ++ name)])

/-- TonyController.on_actions_unregister: fold unregister_one over the
batch. -/
def on_actions_unregister (s : ControllerState) (cmd : ActionsUnregisterCommand) :
    ControllerState × List Output :=
  cmd.action_names.foldl
    (fun acc n =>
      let r := unregister_one acc.1 n
      (r.1, acc.2 ++ r.2))
    (s, [])

/-- The state/query log lines at the top of TonyController.on_actions_force. -/
def force_log_output (cmd : ActionsForceCommand) : List Output :=
  (match cmd.state with
   | some st =>
     if st == "" then [Output.logInfo "actions/force command contains no state."]
     else [Output.logState st cmd.ephemeral_context]
   | none => [Output.logInfo "actions/force command contains no state."]) ++
  [Output.logQuery cmd.query cmd.ephemeral_context]

/-- The warning text listing the candidates missing from the registry
(controller.py line 124). -/
def invalid_actions_text (s : ControllerState) (cmd : ActionsForceCommand) : String :=
  String.intercalate ", " (cmd.action_names.filter (fun n => !(s.model.has_action n)))

/-- TonyController.on_actions_force: log state and query; if the ignore
flag is set drop the request; otherwise validate the candidates against the
registry, dropping with a warning when one is missing; otherwise execute. -/
def on_actions_force (env : Env) (pick : Nat) (s : ControllerState)
    (cmd : ActionsForceCommand) : Except String (ControllerState × List Output) :=
  let out1 := force_log_output cmd
  if s.controls.ignore_actions_force then
    Except.ok ({ s with active_actions_force := none },
      out1 ++ [Output.logSystem "Forced action ignored."])
  else if !(cmd.action_names.all (fun n => s.model.has_action n)) then
    Except.ok ({ s with active_actions_force := none },
      out1 ++ [Output.logWarning
        ("actions/force with invalid actions received. Discarding.\nInvalid actions: " ++
          invalid_actions_text s cmd)])
  else
    match execute_actions_force env pick s cmd false with
    | Except.ok (s2, out2) => Except.ok (s2, out1 ++ out2)
    | Except.error e => Except.error e

/-- TonyController.retry_actions_force: drop if the ignore flag became set;
abort with a warning if a candidate was unregistered meanwhile; otherwise
re-execute the same request with retry set. -/
def retry_actions_force (env : Env) (pick : Nat) (s : ControllerState)
    (cmd : ActionsForceCommand) : Except String (ControllerState × List Output) :=
  if s.controls.ignore_actions_force then
    Except.ok ({ s with active_actions_force := none },
      [Output.logSystem "Forced action ignored."])
  else if !(cmd.action_names.all (fun n => s.model.has_action n)) then
    Except.ok ({ s with active_actions_force := none },
      [Output.logWarning
        ("Actions have been unregistered before retrying the forced action. Retry aborted.\nInvalid actions: " ++
          invalid_actions_text s cmd)])
  else
    match execute_actions_force env pick s cmd true with
    | Except.ok (s2, out2) =>
      Except.ok (s2, Output.logSystem "Retrying forced action." :: out2)
    | Except.error e => Except.error e

/-- The two log lines at the top of TonyController.on_action_result. -/
def result_log_output (cmd : ActionResultCommand)
    (active : Option ActionsForceCommand) : List Output :=
  [Output.logSystem
    ("Action result indicates " ++ (if cmd.success then "success" else "failure")),
   Output.logDebugResult cmd.success active]

/-- The message-surfacing tail of TonyController.on_action_result. -/
def result_message_output (cmd : ActionResultCommand) : List Output :=
  match cmd.message with
  | some msg => [Output.logActionResult cmd.success msg]
  | none =>
    if cmd.success then [Output.logInfo "Successful action result contains no message."]
    else [Output.logWarning "Failed action result contains no message."]

/-- TonyController.on_action_result: log the verdict; on a failure with an
active request retry it, otherwise clear the active request; then surface
the message (or its absence) and notify the view. -/
def on_action_result (env : Env) (pick : Nat) (s : ControllerState)
    (cmd : ActionResultCommand) : Except String (ControllerState × List Output) :=
  let branch : Except String (ControllerState × List Output) :=
    match cmd.success, s.active_actions_force with
    | false, some active => retry_actions_force env pick s active
    | _, _ => Except.ok ({ s with active_actions_force := none }, [])
  match branch with
  | Except.error e => Except.error e
  | Except.ok (s2, out2) =>
    Except.ok (s2, result_log_output cmd s.active_actions_force ++ out2 ++
      result_message_output cmd ++ [Output.viewOnActionResult cmd.success cmd.message])

/-- TonyController.on_shutdown_ready. -/
def on_shutdown_ready (s : ControllerState) : ControllerState × List Output :=
  (s, [Output.logWarning "This command is not officially supported."])

/-- TonyController.on_unknown_command: the body is empty (its warning is
commented out in the source). -/
def on_unknown_command (s : ControllerState) : ControllerState × List Output :=
  (s, [])

/-- A decoded incoming command, a closed variant over the kinds the API
dispatches to the controller. -/
inductive Command where
  | startup (cmd : StartupCommand)
  | context (cmd : ContextCommand)
  | actionsRegister (cmd : ActionsRegisterCommand)
  | actionsUnregister (cmd : ActionsUnregisterCommand)
  | actionsForce (cmd : ActionsForceCommand)
  | actionResult (cmd : ActionResultCommand)
  | shutdownReady
  | unknown
deriving Repr, DecidableEq

/-- The dispatcher: route one decoded command to its controller handler. -/
def dispatch (env : Env) (pick : Nat) (s : ControllerState) (c : Command) :
    Except String (ControllerState × List Output) :=
  match c with
  | Command.startup cmd => Except.ok (on_startup s cmd)
  | Command.context cmd => Except.ok (on_context s cmd)
  | Command.actionsRegister cmd => Except.ok (on_actions_register s cmd)
  | Command.actionsUnregister cmd => Except.ok (on_actions_unregister s cmd)
  | Command.actionsForce cmd => on_actions_force env pick s cmd
  | Command.actionResult cmd => on_action_result env pick s cmd
  | Command.shutdownReady => Except.ok (on_shutdown_ready s)
  | Command.unknown => Except.ok (on_unknown_command s)

/-- Is this output an outgoing action invocation on the API socket? -/
def is_send : Output → Bool
  | Output.sendAction _ _ _ => true
  | _ => false

/-- Is this output a warning log line? -/
def is_warning : Output → Bool
  | Output.logWarning _ => true
  | _ => false

/-- Number of outgoing invocations among a handler's outputs. -/
def count_sends (outs : List Output) : Nat :=
  (outs.filter is_send).length

/-- Outputs of a handler result; an exception produced none (the raise
interrupts the handler). -/
def result_outputs : Except String (ControllerState × List Output) → List Output
  | Except.ok r => r.2
  | Except.error _ => []

/-- The payload execute_actions_force attaches in auto mode: nothing
without a schema, the serialized sampler output with one. -/
def auto_payload (env : Env) (a : NeuroAction) : Option String :=
  a.schema.map (fun sch => env.json_dumps (env.jsf_generate sch))

/-- The candidate pool execute_actions_force draws from in auto mode: the
registered actions whose name occurs in the request's candidate list. -/
def force_candidates (s : ControllerState) (cmd : ActionsForceCommand) : List NeuroAction :=
  s.model.actions.filter (fun a => cmd.action_names.contains a.name)

/-- The registry invariant: no two registered actions share a name. -/
def names_unique (m : TonyModel) : Prop :=
  (m.actions.map (fun a => a.name)).Nodup

/-- A registration-shaped command, for iterating mixed register/unregister
sequences. -/
inductive RegCmd where
  | reg (cmd : ActionsRegisterCommand)
  | unreg (cmd : ActionsUnregisterCommand)
deriving Repr, DecidableEq

/-- Apply one register/unregister command to the controller state. -/
def apply_reg_cmd (s : ControllerState) (c : RegCmd) : ControllerState :=
  match c with
  | RegCmd.reg cmd => (on_actions_register s cmd).1
  | RegCmd.unreg cmd => (on_actions_unregister s cmd).1

/-- Run a sequence of register/unregister commands in delivery order. -/
def run_reg_cmds (s : ControllerState) (cs : List RegCmd) : ControllerState :=
  cs.foldl apply_reg_cmd s

/-- Decimal digit characters of n, most significant first; the recursion
that Nat.toDigitsCore implements with explicit fuel. -/
def dec_digits (n : Nat) : List Char :=
  if _h : n < 10 then [Nat.digitChar n]
  else dec_digits (n / 10) ++ [Nat.digitChar (n % 10)]
decreasing_by exact Nat.div_lt_self (by omega) (by omega)

/-- Numeric value of a decimal digit character. -/
def digit_val (c : Char) : Nat :=
  if c = '1' then 1 else if c = '2' then 2 else if c = '3' then 3 else
  if c = '4' then 4 else if c = '5' then 5 else if c = '6' then 6 else
  if c = '7' then 7 else if c = '8' then 8 else if c = '9' then 9 else 0

/-- Value denoted by a decimal digit string, most significant first. -/
def digits_val (l : List Char) : Nat :=
  l.foldl (fun acc c => acc * 10 + digit_val c) 0

/-- Concrete sampler environment for witnesses. -/
def testEnv : Env :=
  { jsf_generate := fun _ => "sample", json_dumps := fun s => s }

/-- Fixture: a registered action without a schema. -/
def jumpAction : NeuroAction :=
  { name := "jump", description := "jump up", schema := none }

/-- Fixture: a registered action with a schema. -/
def sayAction : NeuroAction :=
  { name := "say", description := "say text", schema := some "sch" }

/-- Fixture: a forced-action request naming only jump. -/
def forceJump : ActionsForceCommand :=
  { state := none, query := "pick one", ephemeral_context := false,
    action_names := ["jump"] }

/-- Fixture: a forced-action request with an empty candidate list. -/
def forceEmpty : ActionsForceCommand :=
  { state := none, query := "pick one", ephemeral_context := false,
    action_names := [] }

/-- Fixture: a forced-action request naming an unregistered action. -/
def forceMissing : ActionsForceCommand :=
  { state := none, query := "pick one", ephemeral_context := false,
    action_names := ["missing"] }

/-- Build a controller state from its four components. -/
def mkState (m : TonyModel) (act : Option ActionsForceCommand) (ctr : Nat)
    (c : Controls) : ControllerState :=
  { model := m, active_actions_force := act, id_counter := ctr, controls := c }

/-- Default control-panel settings of the view (view.py reset: validate on,
ignore off, auto off, latency 0). -/
def defaultControls : Controls :=
  { ignore_actions_force := false, auto_send := false,
    validate_schema := true, latency := 0 }

/-- Control settings with automatic answering of forced actions enabled. -/
def autoControls : Controls :=
  { defaultControls with auto_send := true }

/-- Control settings with the ignore-forced-actions override enabled. -/
def ignoreControls : Controls :=
  { defaultControls with ignore_actions_force := true }

/-- Fixture: a forced-action request naming another unregistered action. -/
def forceFly : ActionsForceCommand :=
  { state := some "st", query := "do it", ephemeral_context := true,
    action_names := ["fly"] }

/-! ## Lemmas about decimal digit strings and the id generator -/

theorem digit_val_digitChar (d : Nat) (hd : d < 10) :
    digit_val (Nat.digitChar d) = d := by
  interval_cases d <;> rfl

theorem digits_val_append (l : List Char) (c : Char) :
    digits_val (l ++ [c]) = digits_val l * 10 + digit_val c := by
  simp [digits_val, List.foldl_append]

theorem digits_val_dec_digits (n : Nat) : digits_val (dec_digits n) = n := by
  induction n using Nat.strong_induction_on with
  | _ n ih =>
    rw [dec_digits]
    split
    · rename_i h
      simp [digits_val, digit_val_digitChar n h]
    · rename_i h
      rw [digits_val_append]
      rw [ih (n / 10) (Nat.div_lt_self (by omega) (by omega))]
      rw [digit_val_digitChar (n % 10) (Nat.mod_lt n (by omega))]
      omega

theorem toDigitsCore_eq (fuel : Nat) : ∀ (n : Nat) (ds : List Char), n < fuel →
    Nat.toDigitsCore 10 fuel n ds = dec_digits n ++ ds := by
  induction fuel with
  | zero => intro n ds h; omega
  | succ fuel ih =>
    intro n ds h
    simp only [Nat.toDigitsCore]
    by_cases h10 : n / 10 = 0
    · have hn : n < 10 := by omega
      rw [if_pos h10, dec_digits, dif_pos hn, Nat.mod_eq_of_lt hn]
      rfl
    · have hn : ¬ n < 10 := by omega
      rw [if_neg h10, ih (n / 10) _ (by omega)]
      conv_rhs => rw [dec_digits]
      rw [dif_neg hn]
      simp

theorem nat_repr_eq_dec_digits (n : Nat) : Nat.repr n = (dec_digits n).asString := by
  rw [Nat.repr, Nat.toDigits, toDigitsCore_eq (n + 1) n [] (Nat.lt_succ_self n),
    List.append_nil]

theorem nat_repr_injective (m n : Nat) (h : Nat.repr m = Nat.repr n) : m = n := by
  rw [nat_repr_eq_dec_digits, nat_repr_eq_dec_digits] at h
  have hd : dec_digits m = dec_digits n := by
    have hdata := congrArg String.data h
    exact hdata
  calc m = digits_val (dec_digits m) := (digits_val_dec_digits m).symm
    _ = digits_val (dec_digits n) := by rw [hd]
    _ = n := digits_val_dec_digits n

theorem action_id_injective (i j : Nat) (h : action_id i = action_id j) : i = j := by
  apply nat_repr_injective
  apply String.ext
  have hdata := congrArg String.data h
  simp only [action_id, String.data_append] at hdata
  exact List.append_cancel_left hdata

theorem action_id_fresh (s : ControllerState) :
    action_id s.id_counter ∉ issued_ids s := by
  intro hmem
  rcases List.mem_map.mp hmem with ⟨j, hj, hide⟩
  have := action_id_injective j s.id_counter hide
  rw [this] at hj
  exact absurd (List.mem_range.mp hj) (lt_irrefl _)

/-! ## Lemmas about the registry and the register/unregister handlers -/

theorem has_action_true_iff (m : TonyModel) (nm : String) :
    m.has_action nm = true ↔ ∃ a ∈ m.actions, a.name = nm := by
  simp [TonyModel.has_action, List.any_eq_true]

theorem has_action_false_iff (m : TonyModel) (nm : String) :
    m.has_action nm = false ↔ nm ∉ m.actions.map (fun a => a.name) := by
  rw [← Bool.not_eq_true, not_iff_not, has_action_true_iff]
  simp [List.mem_map, eq_comm]

theorem register_one_preserves_unique (s : ControllerState) (a : NeuroAction)
    (h : names_unique s.model) : names_unique (register_one s a).1.model := by
  rw [register_one]
  by_cases hdup : s.model.has_action a.name = true
  · simp [hdup, h]
  · have hnot := (has_action_false_iff s.model a.name).mp (Bool.eq_false_iff.mpr hdup)
    simp only [hdup, if_false]
    rw [names_unique, TonyModel.add_action]
    simp only [Bool.eq_false_iff.mpr hdup, Bool.false_eq_true, if_false]
    simp only [List.map_append, List.map_cons, List.map_nil]
    rw [List.nodup_append]
    exact ⟨h, List.nodup_singleton _, by simpa [List.disjoint_singleton] using hnot⟩

theorem unregister_one_preserves_unique (s : ControllerState) (nm : String)
    (h : names_unique s.model) : names_unique (unregister_one s nm).1.model := by
  have hsub : ((s.model.remove_action_by_name nm).actions.map (fun a => a.name)).Sublist
      (s.model.actions.map (fun a => a.name)) := by
    rw [TonyModel.remove_action_by_name]
    exact (List.filter_sublist _).map _
  exact List.Nodup.sublist hsub h

theorem foldl_pair_fst {α : Type} (step : ControllerState → α → ControllerState × List Output) :
    ∀ (l : List α) (s : ControllerState) (outs : List Output),
    (l.foldl (fun acc a => ((step acc.1 a).1, acc.2 ++ (step acc.1 a).2)) (s, outs)).1
      = l.foldl (fun t a => (step t a).1) s := by
  intro l
  induction l with
  | nil => intro s outs; rfl
  | cons a l ih => intro s outs; exact ih _ _

theorem foldl_pair_outs {α : Type} (step : ControllerState → α → ControllerState × List Output) :
    ∀ (l : List α) (s : ControllerState) (outs : List Output),
    l.foldl (fun acc a => ((step acc.1 a).1, acc.2 ++ (step acc.1 a).2)) (s, outs)
      = ((l.foldl (fun acc a => ((step acc.1 a).1, acc.2 ++ (step acc.1 a).2)) (s, [])).1,
         outs ++ (l.foldl (fun acc a => ((step acc.1 a).1, acc.2 ++ (step acc.1 a).2)) (s, [])).2) := by
  intro l
  induction l with
  | nil => intro s outs; simp
  | cons a l ih =>
    intro s outs
    simp only [List.foldl_cons]
    rw [ih ((step s a).1) (outs ++ (step s a).2), ih ((step s a).1) ([] ++ (step s a).2)]
    simp

theorem on_actions_register_fst (s : ControllerState) (cmd : ActionsRegisterCommand) :
    (on_actions_register s cmd).1
      = cmd.actions.foldl (fun t a => (register_one t a).1) s := by
  rw [on_actions_register]
  exact foldl_pair_fst register_one cmd.actions s []

theorem on_actions_unregister_fst (s : ControllerState) (cmd : ActionsUnregisterCommand) :
    (on_actions_unregister s cmd).1
      = cmd.action_names.foldl (fun t n => (unregister_one t n).1) s := by
  rw [on_actions_unregister]
  exact foldl_pair_fst unregister_one cmd.action_names s []

theorem foldl_register_preserves :
    ∀ (l : List NeuroAction) (s : ControllerState), names_unique s.model →
    names_unique (l.foldl (fun t a => (register_one t a).1) s).model := by
  intro l
  induction l with
  | nil => intro s h; exact h
  | cons a l ih => intro s h; exact ih _ (register_one_preserves_unique s a h)

theorem foldl_unregister_preserves :
    ∀ (l : List String) (s : ControllerState), names_unique s.model →
    names_unique (l.foldl (fun t n => (unregister_one t n).1) s).model := by
  intro l
  induction l with
  | nil => intro s h; exact h
  | cons n l ih => intro s h; exact ih _ (unregister_one_preserves_unique s n h)

theorem apply_reg_cmd_preserves (s : ControllerState) (c : RegCmd)
    (h : names_unique s.model) : names_unique (apply_reg_cmd s c).model := by
  cases c with
  | reg cmd =>
    rw [apply_reg_cmd, on_actions_register_fst]
    exact foldl_register_preserves cmd.actions s h
  | unreg cmd =>
    rw [apply_reg_cmd, on_actions_unregister_fst]
    exact foldl_unregister_preserves cmd.action_names s h

theorem run_reg_cmds_preserves :
    ∀ (cs : List RegCmd) (s : ControllerState), names_unique s.model →
    names_unique (run_reg_cmds s cs).model := by
  intro cs
  induction cs with
  | nil => intro s h; exact h
  | cons c cs ih => intro s h; exact ih _ (apply_reg_cmd_preserves s c h)

/-! ## Lemmas about the auto-send execution path -/

theorem force_candidates_ne_nil (s : ControllerState) (cmd : ActionsForceCommand)
    (hvalid : cmd.action_names.all (fun n => s.model.has_action n) = true)
    (hne : cmd.action_names ≠ []) : force_candidates s cmd ≠ [] := by
  cases hcmd : cmd.action_names with
  | nil => exact absurd hcmd hne
  | cons n rest =>
    have hmemn : n ∈ cmd.action_names := by rw [hcmd]; exact List.mem_cons_self _ _
    have hhas : s.model.has_action n = true :=
      List.all_eq_true.mp hvalid n hmemn
    rcases (has_action_true_iff s.model n).mp hhas with ⟨a, ha, hname⟩
    have hmem : a ∈ force_candidates s cmd := by
      rw [force_candidates]
      refine List.mem_filter.mpr ⟨ha, ?_⟩
      simp [List.contains, hname, hmemn]
    intro hnil
    rw [hnil] at hmem
    exact absurd hmem (List.not_mem_nil a)

theorem force_candidates_getElem (s : ControllerState) (cmd : ActionsForceCommand)
    (pick : Nat) (hne : force_candidates s cmd ≠ []) :
    ∃ a, (force_candidates s cmd)[pick % (force_candidates s cmd).length]? = some a ∧
      a ∈ force_candidates s cmd := by
  have hlen : 0 < (force_candidates s cmd).length := List.length_pos.mpr hne
  have hlt : pick % (force_candidates s cmd).length < (force_candidates s cmd).length :=
    Nat.mod_lt _ hlen
  refine ⟨(force_candidates s cmd).get ⟨_, hlt⟩, ?_, ?_⟩
  · simp [List.getElem?_eq_getElem hlt]
  · exact List.get_mem _ _ hlt

theorem force_candidates_cover (s : ControllerState) (cmd : ActionsForceCommand)
    (b : NeuroAction) (hb : b ∈ force_candidates s cmd) :
    ∃ pk : Nat, (force_candidates s cmd)[pk % (force_candidates s cmd).length]? = some b := by
  rcases List.mem_iff_getElem.mp hb with ⟨i, hi, heq⟩
  refine ⟨i, ?_⟩
  rw [Nat.mod_eq_of_lt hi]
  simp only [List.getElem?_eq_getElem hi, heq]

theorem execute_auto_spec (env : Env) (pick : Nat) (s : ControllerState)
    (cmd : ActionsForceCommand) (retry : Bool) (a : NeuroAction)
    (hauto : s.controls.auto_send = true)
    (hget : (force_candidates s cmd)[pick % (force_candidates s cmd).length]? = some a) :
    execute_actions_force env pick s cmd retry =
      Except.ok
        ({ s with active_actions_force := some cmd, id_counter := s.id_counter + 1 },
         [Output.logSystem "Automatically sending random action.",
          Output.logSystem ("Sending action: " ++ a.name),
          Output.sendAction (action_id s.id_counter) a.name (auto_payload env a),
          Output.disableActions]) := by
  rw [execute_actions_force]
  simp only [force_candidates] at hget
  simp only [hauto, if_true]
  rw [hget]
  cases hsch : a.schema with
  | none => simp [gen_next, send_action, auto_payload, hsch]
  | some sch => simp [gen_next, send_action, auto_payload, hsch]

theorem execute_manual_spec (env : Env) (pick : Nat) (s : ControllerState)
    (cmd : ActionsForceCommand) (retry : Bool)
    (hauto : s.controls.auto_send = false) :
    execute_actions_force env pick s cmd retry =
      Except.ok ({ s with active_actions_force := some cmd },
        [Output.viewForceActions cmd.state cmd.query cmd.ephemeral_context
          cmd.action_names retry]) := by
  rw [execute_actions_force]
  simp only [hauto, Bool.false_eq_true, if_false]

/-! ## Handler-level characterizations -/

theorem set_active_none_eq (s : ControllerState) (h : s.active_actions_force = none) :
    { s with active_actions_force := none } = s := by
  cases s
  simp_all

theorem on_actions_force_ignore_spec (env : Env) (pick : Nat) (s : ControllerState)
    (cmd : ActionsForceCommand) (hig : s.controls.ignore_actions_force = true) :
    on_actions_force env pick s cmd =
      Except.ok ({ s with active_actions_force := none },
        force_log_output cmd ++ [Output.logSystem "Forced action ignored."]) := by
  rw [on_actions_force]
  simp [hig]

theorem on_actions_force_invalid_spec (env : Env) (pick : Nat) (s : ControllerState)
    (cmd : ActionsForceCommand)
    (hig : s.controls.ignore_actions_force = false)
    (hval : cmd.action_names.all (fun n => s.model.has_action n) = false) :
    on_actions_force env pick s cmd =
      Except.ok ({ s with active_actions_force := none },
        force_log_output cmd ++ [Output.logWarning
          ("actions/force with invalid actions received. Discarding.\nInvalid actions: " ++
            invalid_actions_text s cmd)]) := by
  rw [on_actions_force]
  simp [hig, hval]

theorem on_actions_force_valid_spec (env : Env) (pick : Nat) (s : ControllerState)
    (cmd : ActionsForceCommand) (s2 : ControllerState) (out2 : List Output)
    (hig : s.controls.ignore_actions_force = false)
    (hval : cmd.action_names.all (fun n => s.model.has_action n) = true)
    (hex : execute_actions_force env pick s cmd false = Except.ok (s2, out2)) :
    on_actions_force env pick s cmd = Except.ok (s2, force_log_output cmd ++ out2) := by
  rw [on_actions_force]
  simp [hig, hval, hex]

theorem retry_ignore_spec (env : Env) (pick : Nat) (s : ControllerState)
    (cmd : ActionsForceCommand) (hig : s.controls.ignore_actions_force = true) :
    retry_actions_force env pick s cmd =
      Except.ok ({ s with active_actions_force := none },
        [Output.logSystem "Forced action ignored."]) := by
  rw [retry_actions_force]
  simp [hig]

theorem retry_invalid_spec (env : Env) (pick : Nat) (s : ControllerState)
    (cmd : ActionsForceCommand)
    (hig : s.controls.ignore_actions_force = false)
    (hval : cmd.action_names.all (fun n => s.model.has_action n) = false) :
    retry_actions_force env pick s cmd =
      Except.ok ({ s with active_actions_force := none },
        [Output.logWarning
          ("Actions have been unregistered before retrying the forced action. Retry aborted.\nInvalid actions: " ++
            invalid_actions_text s cmd)]) := by
  rw [retry_actions_force]
  simp [hig, hval]

theorem retry_valid_spec (env : Env) (pick : Nat) (s : ControllerState)
    (cmd : ActionsForceCommand) (s2 : ControllerState) (out2 : List Output)
    (hig : s.controls.ignore_actions_force = false)
    (hval : cmd.action_names.all (fun n => s.model.has_action n) = true)
    (hex : execute_actions_force env pick s cmd true = Except.ok (s2, out2)) :
    retry_actions_force env pick s cmd =
      Except.ok (s2, Output.logSystem "Retrying forced action." :: out2) := by
  rw [retry_actions_force]
  simp [hig, hval, hex]

theorem on_action_result_retry_spec (env : Env) (pick : Nat) (s : ControllerState)
    (fc : ActionsForceCommand) (cmd : ActionResultCommand)
    (s2 : ControllerState) (out2 : List Output)
    (hfail : cmd.success = false)
    (hactive : s.active_actions_force = some fc)
    (hretry : retry_actions_force env pick s fc = Except.ok (s2, out2)) :
    on_action_result env pick s cmd =
      Except.ok (s2, result_log_output cmd s.active_actions_force ++ out2 ++
        result_message_output cmd ++
        [Output.viewOnActionResult cmd.success cmd.message]) := by
  rw [on_action_result]
  simp [hfail, hactive, hretry]

theorem on_action_result_idle_spec (env : Env) (pick : Nat) (s : ControllerState)
    (cmd : ActionResultCommand)
    (hidle : s.active_actions_force = none) :
    on_action_result env pick s cmd =
      Except.ok ({ s with active_actions_force := none },
        result_log_output cmd s.active_actions_force ++
        result_message_output cmd ++
        [Output.viewOnActionResult cmd.success cmd.message]) := by
  rw [on_action_result]
  cases hsucc : cmd.success <;> simp [hidle, hsucc]

/-! ## Counting outgoing invocations -/

theorem count_sends_append (l1 l2 : List Output) :
    count_sends (l1 ++ l2) = count_sends l1 + count_sends l2 := by
  simp [count_sends, List.filter_append]

theorem count_sends_force_log (cmd : ActionsForceCommand) :
    count_sends (force_log_output cmd) = 0 := by
  rw [force_log_output]
  cases cmd.state with
  | none => rfl
  | some st =>
    by_cases h : st == ""
    · simp [h, count_sends, is_send]
    · simp [h, count_sends, is_send]

theorem count_sends_result_log (cmd : ActionResultCommand)
    (act : Option ActionsForceCommand) :
    count_sends (result_log_output cmd act) = 0 := by
  rfl

theorem count_sends_result_message (cmd : ActionResultCommand) :
    count_sends (result_message_output cmd) = 0 := by
  rw [result_message_output]
  cases h : cmd.message with
  | some msg => rfl
  | none => cases hsucc : cmd.success <;> rfl

/-! ## Claim theorems -/

/-- C1 counterexample: starting from a state with an active forced-action
request, processing a Startup command leaves that request in place, so the
claim that Startup always results in no active forced request is false at
this state. -/
theorem C1_counterexample :
    ¬ ((on_startup (mkState ⟨[jumpAction]⟩ (some forceJump) 3 defaultControls)
        StartupCommand.mk).1.active_actions_force = none) := by
  decide

/-- C1 (amended): processing a Startup command always results in an empty
action registry, regardless of prior state, but the active forced-action
request is left unchanged, not cleared: on_startup only clears the
registry and the view's action list. -/
theorem C1_startup_clears_registry_only (s : ControllerState) (cmd : StartupCommand) :
    (on_startup s cmd).1.model.actions = [] ∧
    (on_startup s cmd).1.active_actions_force = s.active_actions_force ∧
    (on_startup s cmd).1.id_counter = s.id_counter ∧
    (on_startup s cmd).1.controls = s.controls ∧
    (on_startup s cmd).2 = [Output.viewClearActions] :=
  ⟨rfl, rfl, rfl, rfl, rfl⟩

/-- C5: code-bug witness.  Dispatching an ActionsForce command whose
candidate list is empty, with auto-send enabled, makes the dispatcher fail
with the IndexError of random.choice on an empty list instead of degrading
to a warning signal and continuing. -/
theorem C5_dispatch_raises_on_empty_force :
    dispatch testEnv 0 (mkState ⟨[]⟩ none 0 autoControls)
      (Command.actionsForce forceEmpty)
      = Except.error "IndexError: cannot choose from an empty sequence" := by
  rfl

/-- C8: the id generator yields the id with integer suffix equal to its
counter and advances the counter by one per call, and ids of distinct
calls are distinct strings, so no id is ever repeated for the lifetime of
the process, across Idle/Awaiting cycles and retries included. -/
theorem C8_action_ids_distinct :
    (∀ s : ControllerState, (gen_next s).1 = action_id s.id_counter ∧
      (gen_next s).2.id_counter = s.id_counter + 1) ∧
    (∀ i j : Nat, i ≠ j → action_id i ≠ action_id j) :=
  ⟨fun _ => ⟨rfl, rfl⟩,
   fun i j hne heq => hne (action_id_injective i j heq)⟩

/-- C8 witness: the generator's first two ids at a concrete state. -/
theorem C8_action_ids_distinct_witness :
    (gen_next (mkState ⟨[]⟩ none 0 defaultControls)).1 = action_id 0 ∧
    (0 : Nat) ≠ 1 ∧ action_id 0 ≠ action_id 1 :=
  ⟨(C8_action_ids_distinct.1 (mkState ⟨[]⟩ none 0 defaultControls)).1,
   by decide,
   C8_action_ids_distinct.2 0 1 (by decide)⟩

/-- C10: an ActionResult processed while no forced-action request is
active leaves the controller state (registry, active slot, counter,
settings) unchanged, sends no invocation, does not fail, and still
surfaces the result message to Presentation when present. -/
theorem C10_result_without_active_request (env : Env) (pick : Nat)
    (s : ControllerState) (cmd : ActionResultCommand)
    (hidle : s.active_actions_force = none) :
    on_action_result env pick s cmd =
      Except.ok (s,
        result_log_output cmd s.active_actions_force ++
        result_message_output cmd ++
        [Output.viewOnActionResult cmd.success cmd.message]) ∧
    count_sends (result_log_output cmd s.active_actions_force ++
        result_message_output cmd ++
        [Output.viewOnActionResult cmd.success cmd.message]) = 0 ∧
    (∀ m, cmd.message = some m →
      Output.logActionResult cmd.success m ∈
        result_log_output cmd s.active_actions_force ++
        result_message_output cmd ++
        [Output.viewOnActionResult cmd.success cmd.message]) := by
  refine ⟨?_, ?_, ?_⟩
  · rw [on_action_result_idle_spec env pick s cmd hidle, set_active_none_eq s hidle]
  · rw [count_sends_append, count_sends_append, count_sends_result_log,
      count_sends_result_message]
    rfl
  · intro m hm
    simp [result_message_output, hm, List.mem_append]

/-- C10 witness: a successful result with a message at a concrete idle
state. -/
theorem C10_result_without_active_request_witness :
    on_action_result testEnv 0 (mkState ⟨[jumpAction]⟩ none 2 defaultControls)
        ⟨true, some "done"⟩ =
      Except.ok (mkState ⟨[jumpAction]⟩ none 2 defaultControls,
        result_log_output ⟨true, some "done"⟩ none ++
        result_message_output ⟨true, some "done"⟩ ++
        [Output.viewOnActionResult true (some "done")]) ∧
    count_sends (result_log_output ⟨true, some "done"⟩ none ++
        result_message_output ⟨true, some "done"⟩ ++
        [Output.viewOnActionResult true (some "done")]) = 0 ∧
    (∀ m, (some "done" : Option String) = some m →
      Output.logActionResult true m ∈
        result_log_output ⟨true, some "done"⟩ none ++
        result_message_output ⟨true, some "done"⟩ ++
        [Output.viewOnActionResult true (some "done")]) :=
  C10_result_without_active_request testEnv 0
    (mkState ⟨[jumpAction]⟩ none 2 defaultControls) ⟨true, some "done"⟩ rfl

theorem on_actions_register_dup (s : ControllerState) (a : NeuroAction)
    (rest : List NeuroAction) (hdup : s.model.has_action a.name = true) :
    on_actions_register s ⟨a :: rest⟩ =
      ((on_actions_register s ⟨rest⟩).1,
        Output.logWarning ("Action \"" ++ a.name ++ "\" already exists. Ignoring.") ::
          (on_actions_register s ⟨rest⟩).2) := by
  have hstep : register_one s a =
      (s, [Output.logWarning ("Action \"" ++ a.name ++ "\" already exists. Ignoring.")]) := by
    rw [register_one]
    simp [hdup]
  rw [on_actions_register, on_actions_register]
  simp only [List.foldl_cons, hstep]
  rw [foldl_pair_outs register_one rest s
    ([] ++ [Output.logWarning ("Action \"" ++ a.name ++ "\" already exists. Ignoring.")])]
  simp

/-- C3: starting from an empty registry, any sequence of register and
unregister commands keeps the registered names pairwise distinct; and
registering a name that already exists leaves the state (hence the
existing entry) unchanged, emits the duplicate warning, and continues with
the remaining actions of the batch. -/
theorem C3_registry_names_unique :
    (∀ (cs : List RegCmd) (s0 : ControllerState), s0.model.actions = [] →
      names_unique (run_reg_cmds s0 cs).model) ∧
    (∀ (s : ControllerState) (a : NeuroAction) (rest : List NeuroAction),
      s.model.has_action a.name = true →
      on_actions_register s ⟨a :: rest⟩ =
        ((on_actions_register s ⟨rest⟩).1,
          Output.logWarning ("Action \"" ++ a.name ++ "\" already exists. Ignoring.") ::
            (on_actions_register s ⟨rest⟩).2)) := by
  constructor
  · intro cs s0 h0
    apply run_reg_cmds_preserves
    rw [names_unique, h0]
    exact List.nodup_nil
  · intro s a rest hdup
    exact on_actions_register_dup s a rest hdup

/-- C3 witness: a concrete mixed sequence from an empty registry, and a
concrete duplicate registration. -/
theorem C3_registry_names_unique_witness :
    ((mkState ⟨[]⟩ none 0 defaultControls).model.actions = [] ∧
      names_unique (run_reg_cmds (mkState ⟨[]⟩ none 0 defaultControls)
        [RegCmd.reg ⟨[jumpAction, jumpAction, sayAction]⟩,
         RegCmd.unreg ⟨["jump"]⟩]).model) ∧
    ((mkState ⟨[jumpAction]⟩ none 0 defaultControls).model.has_action jumpAction.name
        = true ∧
      on_actions_register (mkState ⟨[jumpAction]⟩ none 0 defaultControls)
          ⟨jumpAction :: [sayAction]⟩ =
        ((on_actions_register (mkState ⟨[jumpAction]⟩ none 0 defaultControls)
            ⟨[sayAction]⟩).1,
          Output.logWarning ("Action \"" ++ jumpAction.name ++ "\" already exists. Ignoring.") ::
            (on_actions_register (mkState ⟨[jumpAction]⟩ none 0 defaultControls)
              ⟨[sayAction]⟩).2)) :=
  ⟨⟨rfl, C3_registry_names_unique.1 _ _ rfl⟩,
   ⟨by decide, C3_registry_names_unique.2 _ jumpAction [sayAction] (by decide)⟩⟩

/-- C4 counterexample: with the ignore-forced-actions flag set, a force
command whose candidate is unregistered is dropped without emitting any
warning (the handler logs a system line instead), refuting the claim's
unconditional "a warning listing the invalid subset is emitted". -/
theorem C4_counterexample :
    (forceMissing.action_names.all
      (fun n => (mkState ⟨[]⟩ none 0 ignoreControls).model.has_action n)) = false ∧
    (result_outputs (on_actions_force testEnv 0
        (mkState ⟨[]⟩ none 0 ignoreControls) forceMissing)).all
      (fun o => !(is_warning o)) = true := by
  decide

/-- C4 (amended): an ActionsForce command whose candidate names are not
all registered never sends an invocation and leaves the state machine Idle
with no active request; the warning listing the invalid subset is emitted
exactly when the ignore flag is unset (when the flag is set the request is
dropped before validation with a system log instead). -/
theorem C4_invalid_force_dropped (env : Env) (pick : Nat) (s : ControllerState)
    (cmd : ActionsForceCommand)
    (hval : cmd.action_names.all (fun n => s.model.has_action n) = false) :
    ∃ outs, on_actions_force env pick s cmd =
        Except.ok ({ s with active_actions_force := none }, outs) ∧
      count_sends outs = 0 ∧
      (s.controls.ignore_actions_force = false →
        Output.logWarning
          ("actions/force with invalid actions received. Discarding.\nInvalid actions: " ++
            invalid_actions_text s cmd) ∈ outs) := by
  by_cases hig : s.controls.ignore_actions_force = true
  · refine ⟨_, on_actions_force_ignore_spec env pick s cmd hig, ?_, ?_⟩
    · rw [count_sends_append, count_sends_force_log]
      rfl
    · intro hfalse
      rw [hig] at hfalse
      cases hfalse
  · have hig2 : s.controls.ignore_actions_force = false := Bool.eq_false_iff.mpr hig
    refine ⟨_, on_actions_force_invalid_spec env pick s cmd hig2 hval, ?_, ?_⟩
    · rw [count_sends_append, count_sends_force_log]
      rfl
    · intro _
      simp [List.mem_append]

/-- C4 witness: a force command for an unregistered action on an empty
registry with default settings. -/
theorem C4_invalid_force_dropped_witness :
    (forceMissing.action_names.all
      (fun n => (mkState ⟨[]⟩ none 0 defaultControls).model.has_action n)) = false ∧
    ∃ outs, on_actions_force testEnv 0 (mkState ⟨[]⟩ none 0 defaultControls)
        forceMissing =
        Except.ok ({ mkState ⟨[]⟩ none 0 defaultControls with
          active_actions_force := none }, outs) ∧
      count_sends outs = 0 ∧
      ((mkState ⟨[]⟩ none 0 defaultControls).controls.ignore_actions_force = false →
        Output.logWarning
          ("actions/force with invalid actions received. Discarding.\nInvalid actions: " ++
            invalid_actions_text (mkState ⟨[]⟩ none 0 defaultControls) forceMissing)
          ∈ outs) :=
  ⟨by decide,
   C4_invalid_force_dropped testEnv 0 (mkState ⟨[]⟩ none 0 defaultControls)
     forceMissing (by decide)⟩

/-- C6 counterexample: with the ignore flag set and an unregistered
candidate, the handler drops the request with the system line of the
ignore path and emits no warning at all, refuting the claim that candidate
validation happens before the ignore flag is consulted. -/
theorem C6_counterexample :
    Output.logSystem "Forced action ignored." ∈
      result_outputs (on_actions_force testEnv 0
        (mkState ⟨[jumpAction]⟩ none 1 ignoreControls) forceFly) ∧
    (result_outputs (on_actions_force testEnv 0
        (mkState ⟨[jumpAction]⟩ none 1 ignoreControls) forceFly)).all
      (fun o => !(is_warning o)) = true := by
  decide

/-- C6 (amended): the ignore_forced_actions flag is consulted before
candidate validation: when set, the request is dropped with a system log
and no validation is performed even if candidates are missing; only when
the flag is unset are missing candidates logged as the invalid subset and
the request dropped. -/
theorem C6_ignore_precedes_validation (env : Env) (pick : Nat)
    (s : ControllerState) (cmd : ActionsForceCommand) :
    (s.controls.ignore_actions_force = true →
      on_actions_force env pick s cmd =
        Except.ok ({ s with active_actions_force := none },
          force_log_output cmd ++ [Output.logSystem "Forced action ignored."])) ∧
    (s.controls.ignore_actions_force = false →
      cmd.action_names.all (fun n => s.model.has_action n) = false →
      on_actions_force env pick s cmd =
        Except.ok ({ s with active_actions_force := none },
          force_log_output cmd ++ [Output.logWarning
            ("actions/force with invalid actions received. Discarding.\nInvalid actions: " ++
              invalid_actions_text s cmd)])) :=
  ⟨fun hig => on_actions_force_ignore_spec env pick s cmd hig,
   fun hig hval => on_actions_force_invalid_spec env pick s cmd hig hval⟩

/-- C6 witness: the ignore path at an ignoring state and the validation
path at a default state, both with an unregistered candidate. -/
theorem C6_ignore_precedes_validation_witness :
    on_actions_force testEnv 0 (mkState ⟨[jumpAction]⟩ none 1 ignoreControls)
        forceFly =
      Except.ok ({ mkState ⟨[jumpAction]⟩ none 1 ignoreControls with
          active_actions_force := none },
        force_log_output forceFly ++ [Output.logSystem "Forced action ignored."]) ∧
    on_actions_force testEnv 0 (mkState ⟨[jumpAction]⟩ none 1 defaultControls)
        forceFly =
      Except.ok ({ mkState ⟨[jumpAction]⟩ none 1 defaultControls with
          active_actions_force := none },
        force_log_output forceFly ++ [Output.logWarning
          ("actions/force with invalid actions received. Discarding.\nInvalid actions: " ++
            invalid_actions_text (mkState ⟨[jumpAction]⟩ none 1 defaultControls)
              forceFly)]) :=
  ⟨(C6_ignore_precedes_validation testEnv 0
      (mkState ⟨[jumpAction]⟩ none 1 ignoreControls) forceFly).1 rfl,
   (C6_ignore_precedes_validation testEnv 0
      (mkState ⟨[jumpAction]⟩ none 1 defaultControls) forceFly).2 rfl (by decide)⟩

/-- C9 counterexample: with the ignore flag set, a failed result whose
active request has an unregistered candidate is dropped without any
warning: the invalidity is not logged, refuting the claim's unconditional
"the invalidity is logged". -/
theorem C9_counterexample :
    (forceFly.action_names.all
      (fun n => (mkState ⟨[]⟩ (some forceFly) 2 ignoreControls).model.has_action n))
      = false ∧
    (result_outputs (on_action_result testEnv 0
        (mkState ⟨[]⟩ (some forceFly) 2 ignoreControls) ⟨false, some "nope"⟩)).all
      (fun o => !(is_warning o)) = true := by
  decide

/-- C9 (amended): a failed ActionResult whose active request has a
candidate no longer registered sends no retry invocation, clears the
active request and ends Idle; the invalidity warning is logged exactly
when the ignore flag is unset (when set, the request is dropped with a
system log before re-validation). -/
theorem C9_failed_retry_invalid_aborts (env : Env) (pick : Nat)
    (s : ControllerState) (fc : ActionsForceCommand) (cmd : ActionResultCommand)
    (hfail : cmd.success = false)
    (hactive : s.active_actions_force = some fc)
    (hval : fc.action_names.all (fun n => s.model.has_action n) = false) :
    ∃ outs, on_action_result env pick s cmd =
        Except.ok ({ s with active_actions_force := none }, outs) ∧
      count_sends outs = 0 ∧
      (s.controls.ignore_actions_force = false →
        Output.logWarning
          ("Actions have been unregistered before retrying the forced action. Retry aborted.\nInvalid actions: " ++
            invalid_actions_text s fc) ∈ outs) := by
  by_cases hig : s.controls.ignore_actions_force = true
  · have hr := retry_ignore_spec env pick s fc hig
    refine ⟨_, on_action_result_retry_spec env pick s fc cmd _ _ hfail hactive hr,
      ?_, ?_⟩
    · rw [count_sends_append, count_sends_append, count_sends_append,
        count_sends_result_log, count_sends_result_message]
      rfl
    · intro hfalse
      rw [hig] at hfalse
      cases hfalse
  · have hig2 : s.controls.ignore_actions_force = false := Bool.eq_false_iff.mpr hig
    have hr := retry_invalid_spec env pick s fc hig2 hval
    refine ⟨_, on_action_result_retry_spec env pick s fc cmd _ _ hfail hactive hr,
      ?_, ?_⟩
    · rw [count_sends_append, count_sends_append, count_sends_append,
        count_sends_result_log, count_sends_result_message]
      rfl
    · intro _
      simp [List.mem_append]

/-- C9 witness: a failed result at a state whose active request names an
action that has been unregistered, with default settings. -/
theorem C9_failed_retry_invalid_aborts_witness :
    (false = false) ∧
    ((mkState ⟨[]⟩ (some forceJump) 2 defaultControls).active_actions_force
      = some forceJump) ∧
    (forceJump.action_names.all
      (fun n => (mkState ⟨[]⟩ (some forceJump) 2 defaultControls).model.has_action n))
      = false ∧
    ∃ outs, on_action_result testEnv 0
        (mkState ⟨[]⟩ (some forceJump) 2 defaultControls) ⟨false, some "err"⟩ =
        Except.ok ({ mkState ⟨[]⟩ (some forceJump) 2 defaultControls with
          active_actions_force := none }, outs) ∧
      count_sends outs = 0 ∧
      ((mkState ⟨[]⟩ (some forceJump) 2 defaultControls).controls.ignore_actions_force
          = false →
        Output.logWarning
          ("Actions have been unregistered before retrying the forced action. Retry aborted.\nInvalid actions: " ++
            invalid_actions_text (mkState ⟨[]⟩ (some forceJump) 2 defaultControls)
              forceJump) ∈ outs) :=
  ⟨rfl, rfl, by decide,
   C9_failed_retry_invalid_aborts testEnv 0
     (mkState ⟨[]⟩ (some forceJump) 2 defaultControls) forceJump
     ⟨false, some "err"⟩ rfl rfl (by decide)⟩

/-- C2 counterexample: two refutations of "exactly one new invocation is
sent".  In manual mode (auto_send unset), a failed result while Awaiting
with all candidates registered and the ignore flag unset sends no
invocation at all — the handler only posts the choice dialog to the view.
And in auto mode with an Awaiting request whose candidate list is empty
(vacuously all registered), the retry raises IndexError and sends
nothing. -/
theorem C2_counterexample :
    ((forceJump.action_names.all
      (fun n => (mkState ⟨[jumpAction]⟩ (some forceJump) 1
        defaultControls).model.has_action n)) = true ∧
    (mkState ⟨[jumpAction]⟩ (some forceJump) 1
      defaultControls).controls.ignore_actions_force = false ∧
    count_sends (result_outputs (on_action_result testEnv 0
      (mkState ⟨[jumpAction]⟩ (some forceJump) 1 defaultControls)
      ⟨false, some "m"⟩)) = 0) ∧
    ((forceEmpty.action_names.all
      (fun n => (mkState ⟨[sayAction]⟩ (some forceEmpty) 3
        autoControls).model.has_action n)) = true ∧
    count_sends (result_outputs (on_action_result testEnv 0
      (mkState ⟨[sayAction]⟩ (some forceEmpty) 3 autoControls)
      ⟨false, some "x"⟩)) = 0) := by
  decide

/-- C2 (amended): in auto-send mode, processing a failed ActionResult
while a request is Awaiting whose (non-empty) candidates are all still
registered, with the ignore flag unset, sends exactly one new invocation;
its id is the generator's next id, distinct from every id issued before
it, and the generator's counter advances by one. -/
theorem C2_failed_result_retries_fresh_id (env : Env) (pick : Nat)
    (s : ControllerState) (fc : ActionsForceCommand) (cmd : ActionResultCommand)
    (hfail : cmd.success = false)
    (hactive : s.active_actions_force = some fc)
    (hval : fc.action_names.all (fun n => s.model.has_action n) = true)
    (hig : s.controls.ignore_actions_force = false)
    (hauto : s.controls.auto_send = true)
    (hne : fc.action_names ≠ []) :
    ∃ s2 outs a,
      on_action_result env pick s cmd = Except.ok (s2, outs) ∧
      count_sends outs = 1 ∧
      Output.sendAction (action_id s.id_counter) a.name (auto_payload env a) ∈ outs ∧
      action_id s.id_counter ∉ issued_ids s ∧
      s2.id_counter = s.id_counter + 1 := by
  have hcne := force_candidates_ne_nil s fc hval hne
  rcases force_candidates_getElem s fc pick hcne with ⟨a, hget, _⟩
  have hex := execute_auto_spec env pick s fc true a hauto hget
  have hr := retry_valid_spec env pick s fc _ _ hig hval hex
  refine ⟨_, _, a, on_action_result_retry_spec env pick s fc cmd _ _ hfail hactive hr,
    ?_, ?_, action_id_fresh s, rfl⟩
  · rw [count_sends_append, count_sends_append, count_sends_append,
      count_sends_result_log, count_sends_result_message]
    rfl
  · simp [List.mem_append]

/-- C2 witness: a failed result at a concrete Awaiting state with
auto-send on and the single candidate still registered. -/
theorem C2_failed_result_retries_fresh_id_witness :
    (false = false) ∧
    ((mkState ⟨[jumpAction]⟩ (some forceJump) 1 autoControls).active_actions_force
      = some forceJump) ∧
    (forceJump.action_names.all
      (fun n => (mkState ⟨[jumpAction]⟩ (some forceJump) 1
        autoControls).model.has_action n)) = true ∧
    ∃ s2 outs a,
      on_action_result testEnv 0
        (mkState ⟨[jumpAction]⟩ (some forceJump) 1 autoControls)
        ⟨false, some "m"⟩ = Except.ok (s2, outs) ∧
      count_sends outs = 1 ∧
      Output.sendAction (action_id 1) a.name (auto_payload testEnv a) ∈ outs ∧
      action_id 1 ∉ issued_ids (mkState ⟨[jumpAction]⟩ (some forceJump) 1
        autoControls) ∧
      s2.id_counter = 1 + 1 :=
  ⟨rfl, rfl, by decide,
   C2_failed_result_retries_fresh_id testEnv 0
     (mkState ⟨[jumpAction]⟩ (some forceJump) 1 autoControls) forceJump
     ⟨false, some "m"⟩ rfl rfl (by decide) rfl rfl (by decide)⟩

/-- C7 counterexample: a force request with an empty candidate list is
valid in the claim's sense (its names are vacuously all registered), yet
executing it in auto mode sends no invocation (it fails with IndexError),
refuting the claim that exactly one invocation is sent for every valid
request. -/
theorem C7_counterexample :
    (forceEmpty.action_names.all
      (fun n => (mkState ⟨[jumpAction]⟩ none 0 autoControls).model.has_action n))
      = true ∧
    count_sends (result_outputs (execute_actions_force testEnv 0
      (mkState ⟨[jumpAction]⟩ none 0 autoControls) forceEmpty false)) = 0 := by
  decide

/-- C7 (amended): executing a forced request whose candidate pool
(candidate names ∩ registry) is non-empty, in auto-send mode, sends
exactly one invocation: its action is the pool element selected by the
random pick, every pool element is the selection of some pick, and the
payload is empty when the action has no schema and the serialized sampler
output when it has one. -/
theorem C7_auto_force_one_invocation (env : Env) (pick : Nat)
    (s : ControllerState) (cmd : ActionsForceCommand) (retry : Bool)
    (hauto : s.controls.auto_send = true)
    (hne : force_candidates s cmd ≠ []) :
    ∃ a s2 outs,
      (force_candidates s cmd)[pick % (force_candidates s cmd).length]? = some a ∧
      a ∈ force_candidates s cmd ∧
      execute_actions_force env pick s cmd retry = Except.ok (s2, outs) ∧
      count_sends outs = 1 ∧
      Output.sendAction (action_id s.id_counter) a.name (auto_payload env a) ∈ outs ∧
      (∀ b ∈ force_candidates s cmd, ∃ pk : Nat,
        (force_candidates s cmd)[pk % (force_candidates s cmd).length]? = some b) := by
  rcases force_candidates_getElem s cmd pick hne with ⟨a, hget, hmem⟩
  refine ⟨a, _, _, hget, hmem,
    execute_auto_spec env pick s cmd retry a hauto hget, ?_, ?_,
    fun b hb => force_candidates_cover s cmd b hb⟩
  · rfl
  · simp

/-- C7 witness: a request naming both registered actions, with auto-send
on. -/
theorem C7_auto_force_one_invocation_witness :
    (force_candidates (mkState ⟨[jumpAction, sayAction]⟩ none 5 autoControls)
      ⟨none, "q", false, ["jump", "say"]⟩ ≠ []) ∧
    ∃ a s2 outs,
      (force_candidates (mkState ⟨[jumpAction, sayAction]⟩ none 5 autoControls)
        ⟨none, "q", false, ["jump", "say"]⟩)[1 %
          (force_candidates (mkState ⟨[jumpAction, sayAction]⟩ none 5 autoControls)
            ⟨none, "q", false, ["jump", "say"]⟩).length]? = some a ∧
      a ∈ force_candidates (mkState ⟨[jumpAction, sayAction]⟩ none 5 autoControls)
        ⟨none, "q", false, ["jump", "say"]⟩ ∧
      execute_actions_force testEnv 1
        (mkState ⟨[jumpAction, sayAction]⟩ none 5 autoControls)
        ⟨none, "q", false, ["jump", "say"]⟩ false = Except.ok (s2, outs) ∧
      count_sends outs = 1 ∧
      Output.sendAction (action_id 5) a.name (auto_payload testEnv a) ∈ outs ∧
      (∀ b ∈ force_candidates (mkState ⟨[jumpAction, sayAction]⟩ none 5 autoControls)
          ⟨none, "q", false, ["jump", "say"]⟩, ∃ pk : Nat,
        (force_candidates (mkState ⟨[jumpAction, sayAction]⟩ none 5 autoControls)
          ⟨none, "q", false, ["jump", "say"]⟩)[pk %
            (force_candidates (mkState ⟨[jumpAction, sayAction]⟩ none 5 autoControls)
              ⟨none, "q", false, ["jump", "say"]⟩).length]? = some b) :=
  ⟨by decide,
   C7_auto_force_one_invocation testEnv 1
     (mkState ⟨[jumpAction, sayAction]⟩ none 5 autoControls)
     ⟨none, "q", false, ["jump", "say"]⟩ false rfl (by decide)⟩
